import Mathlib

/-!
Verification of the bidirectional compatibility scoring and ranking engine
(`supabase/functions/_shared/matching.ts`).

Modelling conventions:
* JavaScript numbers are modelled as rationals (`ℚ`); exact real arithmetic is
  the idealisation of the double-precision source.
* A JavaScript `NaN` is modelled as `none` in `Option ℚ`.  With well-typed
  inputs the only place a `NaN` can arise is the division
  `distance / (rangeWidth / 2)` in `scoreNumericAttribute` when
  `min = max` and the candidate value equals them (then `0 / 0 = NaN`,
  `Math.max(0, NaN) = NaN`, `15 * NaN = NaN`), after which `NaN` is absorbing
  for `+`, `Math.min`, `Math.max`, `*`, `Math.sqrt` and `Math.round`.
* `null` / `undefined` fields are modelled with `Option`.
* JavaScript truthiness tests are reproduced where the source relies on them:
  `if (seekerPrefs.size)` is true for every present object, `if (seekerPrefs.shineFactor)`
  is false for an absent preference and for the empty string but true for any
  array (even `[]`), and `candidate.id || "unknown"` falls back on `""`.
* `Array.prototype.sort` is stable per the ECMAScript specification, and a
  comparator result of `NaN` is treated as `+0` (SortCompare); when the
  resulting comparator is inconsistent the final order is
  implementation-defined, and we model the concrete ES-compliant behaviour of
  the stable `List.mergeSort` with the comparator
  `(a, b) => b.mutualScore - a.mutualScore`.
-/

namespace FruitMatching

/-- Numeric preference: optional `min` / `max` bounds
(`{ min?: number; max?: number }`). -/
structure NumericPref where
  min : Option ℚ
  max : Option ℚ
deriving DecidableEq

/-- Enum preference: a single value or an array of values
(`string | string[]`). -/
inductive EnumPref where
  | single (value : String)
  | multi (values : List String)
deriving DecidableEq

/-- `FruitAttributes` from `generateFruit.ts`: every field independently
nullable ("unknown"). -/
structure FruitAttributes where
  size : Option ℚ
  weight : Option ℚ
  hasStem : Option Bool
  hasLeaf : Option Bool
  hasWorm : Option Bool
  shineFactor : Option String
  hasChemicals : Option Bool
deriving DecidableEq

/-- `FruitPreferences` from `generateFruit.ts`: every field optional. -/
structure FruitPreferences where
  size : Option NumericPref
  weight : Option NumericPref
  hasStem : Option Bool
  hasLeaf : Option Bool
  hasWorm : Option Bool
  shineFactor : Option EnumPref
  hasChemicals : Option Bool
deriving DecidableEq

/-- A fruit: category tag, attribute set, preference set, optional id. -/
structure Fruit where
  id : Option String
  type : String
  attributes : FruitAttributes
  preferences : FruitPreferences
deriving DecidableEq

/-- The `Match` record produced by `findTopMatches`.  Score fields are
`Option ℚ` because a `NaN` (modelled `none`) can flow into them. -/
structure Match where
  fruit : Fruit
  fruitId : String
  seekerToFruitScore : Option ℚ
  fruitToSeekerScore : Option ℚ
  mutualScore : Option ℚ
deriving DecidableEq

/-- `scoreNumericAttribute` (matching.ts lines 21-65).  The sequential `if`
chain of the source is rendered as a case split on which bounds are present;
each branch corresponds line-for-line to the source.  In the both-bounds
branch, reaching the proximity formula means `min ≤ value ≤ max`, so when
`max - min = 0` the source computes `0 / 0 = NaN` (then
`Math.max(0, NaN) = NaN` and `15 * NaN = NaN`), modelled as `none`. -/
def scoreNumericAttribute (preference : Option NumericPref)
    (actualValue : Option ℚ) : Option ℚ :=
  match preference with
  | none => some 0
  | some p =>
    match p.min, p.max with
    | none, none => some 0
    | some mn, none =>
      match actualValue with
      | none => some 0
      | some v =>
        if v < mn then some (-20)
        else some (15 * max 0 (1 - (v - mn) / 5))
    | none, some mx =>
      match actualValue with
      | none => some 0
      | some v =>
        if v > mx then some (-20)
        else some (15 * max 0 (1 - (mx - v) / 5))
    | some mn, some mx =>
      match actualValue with
      | none => some 0
      | some v =>
        if v < mn then some (-20)
        else if v > mx then some (-20)
        else if mx - mn = 0 then none
        else some (15 * max 0 (1 - |v - (mn + mx) / 2| / ((mx - mn) / 2)))

/-- `scoreBooleanAttribute` (matching.ts lines 73-93). -/
def scoreBooleanAttribute (preference : Option Bool)
    (actualValue : Option Bool) : ℚ :=
  match preference with
  | none => 0
  | some p =>
    match actualValue with
    | none => 0
    | some v => if v = p then 15 else -25

/-- JavaScript truthiness of the `shineFactor` preference: `undefined` and
the empty string are falsy, every array (including `[]`) is truthy. -/
def enumPrefActive : Option EnumPref → Bool
  | none => false
  | some (EnumPref.single s) => !(s == "")
  | some (EnumPref.multi _) => true

/-- The `acceptableValues` array of `scoreEnumAttribute`
(`Array.isArray(preference) ? preference : [preference]`). -/
def acceptableValues : EnumPref → List String
  | EnumPref.single s => [s]
  | EnumPref.multi l => l

/-- `scoreEnumAttribute` (matching.ts lines 101-124): `if (!preference)` uses
JS truthiness (`enumPrefActive`). -/
def scoreEnumAttribute (preference : Option EnumPref)
    (actualValue : Option String) : ℚ :=
  match preference with
  | none => 0
  | some p =>
    if !enumPrefActive (some p) then 0
    else
      match actualValue with
      | none => 0
      | some v => if v ∈ acceptableValues p then 12 else -15

/-- Contribution of the size preference inside `calculateCompatibilityScore`
(`if (seekerPrefs.size) score += scoreNumericAttribute(...)`; an object is
always truthy). -/
def sizeContribution (p : FruitPreferences) (a : FruitAttributes) : Option ℚ :=
  if p.size.isSome then scoreNumericAttribute p.size a.size else some 0

/-- Contribution of the weight preference inside
`calculateCompatibilityScore`. -/
def weightContribution (p : FruitPreferences) (a : FruitAttributes) : Option ℚ :=
  if p.weight.isSome then scoreNumericAttribute p.weight a.weight else some 0

/-- Contribution of the `hasStem` preference
(`if (seekerPrefs.hasStem !== undefined) ...`). -/
def hasStemContribution (p : FruitPreferences) (a : FruitAttributes) : ℚ :=
  if p.hasStem.isSome then scoreBooleanAttribute p.hasStem a.hasStem else 0

/-- Contribution of the `hasLeaf` preference. -/
def hasLeafContribution (p : FruitPreferences) (a : FruitAttributes) : ℚ :=
  if p.hasLeaf.isSome then scoreBooleanAttribute p.hasLeaf a.hasLeaf else 0

/-- Contribution of the `hasWorm` preference. -/
def hasWormContribution (p : FruitPreferences) (a : FruitAttributes) : ℚ :=
  if p.hasWorm.isSome then scoreBooleanAttribute p.hasWorm a.hasWorm else 0

/-- Contribution of the `hasChemicals` preference. -/
def hasChemicalsContribution (p : FruitPreferences) (a : FruitAttributes) : ℚ :=
  if p.hasChemicals.isSome then scoreBooleanAttribute p.hasChemicals a.hasChemicals
  else 0

/-- Contribution of the `shineFactor` preference
(`if (seekerPrefs.shineFactor) ...` — JS truthiness). -/
def shineFactorContribution (p : FruitPreferences) (a : FruitAttributes) : ℚ :=
  if enumPrefActive p.shineFactor then scoreEnumAttribute p.shineFactor a.shineFactor
  else 0

/-- `calculateCompatibilityScore` (matching.ts lines 132-178): base 50 plus
the seven contributions, clamped by `Math.max(0, Math.min(100, score))`.
Only the two numeric contributions can be `NaN`; a `NaN` summand poisons the
sum and passes through the clamp, so the result is `none` exactly when one of
them is `none`. -/
def calculateCompatibilityScore (seeker candidate : Fruit) : Option ℚ :=
  match sizeContribution seeker.preferences candidate.attributes,
        weightContribution seeker.preferences candidate.attributes with
  | some s₁, some s₂ =>
    some (max 0 (min 100 (50 + s₁ + s₂
      + hasStemContribution seeker.preferences candidate.attributes
      + hasLeafContribution seeker.preferences candidate.attributes
      + hasWormContribution seeker.preferences candidate.attributes
      + hasChemicalsContribution seeker.preferences candidate.attributes
      + shineFactorContribution seeker.preferences candidate.attributes)))
  | _, _ => none

/-- Exact value of `Math.round(Math.sqrt(q) * 10) / 10` for a nonnegative
rational `q`: writing `s = √(400 q)`, we have
`round(10 √q) = ⌊s / 2 + 1 / 2⌋ = ⌈⌊s⌋ / 2⌉`, and
`⌊s⌋ = Nat.sqrt ⌊400 q⌋` (see `sqrtRound10_eq_round_real_sqrt`). -/
def sqrtRound10 (q : ℚ) : ℚ :=
  (((Nat.sqrt (Int.toNat ⌊400 * q⌋) + 1) / 2 : ℕ) : ℚ) / 10

/-- `Math.round(q * 10) / 10` (round half towards positive infinity, which is
Mathlib's `round`). -/
def roundTo1 (q : ℚ) : ℚ := ((round (q * 10) : ℤ) : ℚ) / 10

/-- `calculateMutualScore` (matching.ts lines 186-194): geometric mean of the
two directional scores, rounded to one decimal place.  `Math.sqrt` and
`Math.round` both propagate `NaN`. -/
def calculateMutualScore (fruitA fruitB : Fruit) : Option ℚ :=
  match calculateCompatibilityScore fruitA fruitB,
        calculateCompatibilityScore fruitB fruitA with
  | some aToB, some bToA => some (sqrtRound10 (aToB * bToA))
  | _, _ => none

/-- `candidate.id || "unknown"`: JS `||` also replaces the empty string. -/
def jsIdOr : Option String → String
  | none => "unknown"
  | some s => if s == "" then "unknown" else s

/-- The `Match` record built for one candidate inside `findTopMatches`
(matching.ts lines 209-221).  The mutual score is the square root of the
product of the two unrounded directional scores, rounded to one decimal. -/
def buildMatch (seeker candidate : Fruit) : Match :=
  let seekerToFruit := calculateCompatibilityScore seeker candidate
  let fruitToSeeker := calculateCompatibilityScore candidate seeker
  { fruit := candidate
    fruitId := jsIdOr candidate.id
    seekerToFruitScore := seekerToFruit.map roundTo1
    fruitToSeekerScore := fruitToSeeker.map roundTo1
    mutualScore :=
      match seekerToFruit, fruitToSeeker with
      | some x, some y => some (sqrtRound10 (x * y))
      | _, _ => none }

/-- The ECMAScript ordering induced by the comparator
`(a, b) => b.mutualScore - a.mutualScore`: `a` may precede `b` exactly when
the comparator value is not positive; a `NaN` comparator value counts as `+0`
(SortCompare), i.e. as "equal". -/
def matchCompare (a b : Match) : Bool :=
  match a.mutualScore, b.mutualScore with
  | some x, some y => decide (y ≤ x)
  | _, _ => true

/-- The intermediate `scoredMatches` list of `findTopMatches`. -/
def scoredList (seeker : Fruit) (candidates : List Fruit) : List Match :=
  candidates.map (buildMatch seeker)

/-- `findTopMatches` (matching.ts lines 203-228): score all candidates, sort
by mutual score descending (stable), truncate with `slice(0, limit)`. -/
def findTopMatches (seeker : Fruit) (candidates : List Fruit)
    (limit : ℕ := 5) : List Match :=
  ((scoredList seeker candidates).mergeSort matchCompare).take limit

/-- The seven scoring dimensions. -/
inductive Dim where
  | size | weight | hasStem | hasLeaf | hasWorm | shineFactor | hasChemicals
deriving DecidableEq

/-- The candidate attribute of a dimension is unknown (`null`). -/
def attrUnknown : Dim → FruitAttributes → Prop
  | Dim.size, a => a.size = none
  | Dim.weight, a => a.weight = none
  | Dim.hasStem, a => a.hasStem = none
  | Dim.hasLeaf, a => a.hasLeaf = none
  | Dim.hasWorm, a => a.hasWorm = none
  | Dim.shineFactor, a => a.shineFactor = none
  | Dim.hasChemicals, a => a.hasChemicals = none

/-- Remove one dimension's preference. -/
def erasePref : Dim → FruitPreferences → FruitPreferences
  | Dim.size, p => { p with size := none }
  | Dim.weight, p => { p with weight := none }
  | Dim.hasStem, p => { p with hasStem := none }
  | Dim.hasLeaf, p => { p with hasLeaf := none }
  | Dim.hasWorm, p => { p with hasWorm := none }
  | Dim.shineFactor, p => { p with shineFactor := none }
  | Dim.hasChemicals, p => { p with hasChemicals := none }

/-- What one dimension adds inside `calculateCompatibilityScore` (the
boolean/enum contributions are total, the numeric ones may be `NaN`). -/
def dimContribution (d : Dim) (p : FruitPreferences) (a : FruitAttributes) :
    Option ℚ :=
  match d with
  | Dim.size => sizeContribution p a
  | Dim.weight => weightContribution p a
  | Dim.hasStem => some (hasStemContribution p a)
  | Dim.hasLeaf => some (hasLeafContribution p a)
  | Dim.hasWorm => some (hasWormContribution p a)
  | Dim.shineFactor => some (shineFactorContribution p a)
  | Dim.hasChemicals => some (hasChemicalsContribution p a)

/-- An entirely absent preference set (`preferences: {}`). -/
def emptyPreferences : FruitPreferences :=
  { size := none, weight := none, hasStem := none, hasLeaf := none
    hasWorm := none, shineFactor := none, hasChemicals := none }

/-- Claim-facing sortedness: every earlier match has a mutual score at least
as large as every later one (on defined scores). -/
def mutualDescending (a b : Match) : Prop :=
  ∀ x y, a.mutualScore = some x → b.mutualScore = some y → y ≤ x

/-- Auxiliary total and transitive comparator: compare mutual scores with
default 0.  It agrees with `matchCompare` whenever neither score is `NaN`. -/
def matchCompareD (a b : Match) : Bool :=
  decide (b.mutualScore.getD 0 ≤ a.mutualScore.getD 0)

/-! ### Concrete example fruits (used in witnesses and counterexamples) -/

/-- Attribute set with every field unknown. -/
def noAttributes : FruitAttributes :=
  { size := none, weight := none, hasStem := none, hasLeaf := none
    hasWorm := none, shineFactor := none, hasChemicals := none }

/-- An apple with a known size of 5 and a stem, and no preferences. -/
def seekerFive : Fruit :=
  { id := some "fruits:seeker"
    type := "apple"
    attributes := { noAttributes with size := some 5, hasStem := some true }
    preferences := emptyPreferences }

/-- An orange whose only preference is the degenerate size range `[5, 5]`. -/
def degenerateFruit : Fruit :=
  { id := some "fruits:nan1"
    type := "orange"
    attributes := noAttributes
    preferences := { emptyPreferences with size := some ⟨some 5, some 5⟩ } }

/-- A second degenerate orange with a different id. -/
def degenerateFruitB : Fruit :=
  { degenerateFruit with id := some "fruits:nan2" }

/-- An orange with no attributes and no preferences. -/
def neutralFruit : Fruit :=
  { id := some "fruits:mid"
    type := "orange"
    attributes := noAttributes
    preferences := emptyPreferences }

/-- An orange that prefers fruits with a stem. -/
def stemLover : Fruit :=
  { id := some "fruits:top"
    type := "orange"
    attributes := noAttributes
    preferences := { emptyPreferences with hasStem := some true } }

/-- An apple of size 5 requiring all four boolean attributes to be true. -/
def boolClasher : Fruit :=
  { id := some "fruits:clashA"
    type := "apple"
    attributes := { noAttributes with size := some 5 }
    preferences :=
      { emptyPreferences with
          hasStem := some true, hasLeaf := some true,
          hasWorm := some true, hasChemicals := some true } }

/-- An orange with all four boolean attributes false and the degenerate size
preference `[5, 5]`. -/
def boolMismatch : Fruit :=
  { id := some "fruits:clashB"
    type := "orange"
    attributes :=
      { noAttributes with
          hasStem := some false, hasLeaf := some false,
          hasWorm := some false, hasChemicals := some false }
    preferences := { emptyPreferences with size := some ⟨some 5, some 5⟩ } }

/-- Like `boolMismatch` but with no preferences of its own. -/
def boolMismatchNoPref : Fruit :=
  { boolMismatch with preferences := emptyPreferences }

/-! ### Generic sorting helpers -/

/-- `List.merge` only ever compares an element of the left list with an
element of the right list, so comparators agreeing there give equal merges. -/
theorem merge_congr {α : Type} {le₁ le₂ : α → α → Bool} :
    ∀ (xs ys : List α), (∀ a ∈ xs, ∀ b ∈ ys, le₁ a b = le₂ a b) →
      List.merge xs ys le₁ = List.merge xs ys le₂
  | [], ys, _ => by simp
  | x :: xs, [], _ => by simp
  | x :: xs, y :: ys, h => by
    rw [List.cons_merge_cons, List.cons_merge_cons, h x (by simp) y (by simp)]
    by_cases hxy : le₂ x y = true
    · simp only [hxy, if_true]
      rw [merge_congr xs (y :: ys) (fun a ha b hb => h a (List.mem_cons_of_mem _ ha) b hb)]
    · simp only [hxy, if_false, Bool.false_eq_true]
      rw [merge_congr (x :: xs) ys (fun a ha b hb => h a ha b (List.mem_cons_of_mem _ hb))]
termination_by xs ys => xs.length + ys.length

/-- `List.mergeSort` only ever compares elements of the input list, so
comparators agreeing on the input give equal results. -/
theorem mergeSort_congr {α : Type} {le₁ le₂ : α → α → Bool} :
    ∀ (l : List α), (∀ a ∈ l, ∀ b ∈ l, le₁ a b = le₂ a b) →
      l.mergeSort le₁ = l.mergeSort le₂
  | [], _ => by simp
  | [a], _ => by simp
  | a :: b :: xs, h => by
    have hl1 : (List.splitInTwo ⟨a :: b :: xs, rfl⟩).1.1.length < xs.length + 1 + 1 := by
      simp only [List.splitInTwo_fst]
      simp only [List.length_take, List.length_cons]
      omega
    have hl2 : (List.splitInTwo ⟨a :: b :: xs, rfl⟩).2.1.length < xs.length + 1 + 1 := by
      simp only [List.splitInTwo_snd]
      simp only [List.length_drop, List.length_cons]
      omega
    have hsub1 : ∀ c ∈ (List.splitInTwo ⟨a :: b :: xs, rfl⟩).1.1, c ∈ a :: b :: xs := by
      intro c hc
      simp only [List.splitInTwo_fst] at hc
      exact List.mem_of_mem_take hc
    have hsub2 : ∀ c ∈ (List.splitInTwo ⟨a :: b :: xs, rfl⟩).2.1, c ∈ a :: b :: xs := by
      intro c hc
      simp only [List.splitInTwo_snd] at hc
      exact List.mem_of_mem_drop hc
    rw [List.mergeSort, List.mergeSort]
    rw [mergeSort_congr (List.splitInTwo ⟨a :: b :: xs, rfl⟩).1.1
          (fun x hx y hy => h x (hsub1 x hx) y (hsub1 y hy)),
        mergeSort_congr (List.splitInTwo ⟨a :: b :: xs, rfl⟩).2.1
          (fun x hx y hy => h x (hsub2 x hx) y (hsub2 y hy))]
    exact merge_congr _ _ (fun x hx y hy =>
      h x (hsub1 x (List.mem_mergeSort.mp hx)) y (hsub2 y (List.mem_mergeSort.mp hy)))
termination_by l => l.length

/-! ### Basic scorer facts -/

/-- An unknown numeric attribute contributes 0, whatever the preference. -/
theorem scoreNumericAttribute_unknown (p : Option NumericPref) :
    scoreNumericAttribute p none = some 0 := by
  match p with
  | none => rfl
  | some pp =>
    rcases pp with ⟨mn, mx⟩
    cases mn <;> cases mx <;> rfl

/-- An unknown boolean attribute contributes 0, whatever the preference. -/
theorem scoreBooleanAttribute_unknown (p : Option Bool) :
    scoreBooleanAttribute p none = 0 := by
  cases p <;> rfl

/-- An unknown enum attribute contributes 0, whatever the preference. -/
theorem scoreEnumAttribute_unknown (p : Option EnumPref) :
    scoreEnumAttribute p none = 0 := by
  match p with
  | none => rfl
  | some (EnumPref.single s) => simp [scoreEnumAttribute]
  | some (EnumPref.multi l) => rfl

/-! ### Facts about the exact rounded square root -/

/-- Evaluation rule for `sqrtRound10`: if `m = ⌊√(400 q)⌋` then
`sqrtRound10 q = ((m + 1) / 2) / 10`. -/
theorem sqrtRound10_eval (q : ℚ) (m : ℕ) (hq : 0 ≤ q)
    (h1 : (m : ℚ) * m ≤ 400 * q) (h2 : 400 * q < ((m : ℚ) + 1) * ((m : ℚ) + 1)) :
    sqrtRound10 q = (((m + 1) / 2 : ℕ) : ℚ) / 10 := by
  have hq4 : (0 : ℚ) ≤ 400 * q := by positivity
  have hfl : (0 : ℤ) ≤ ⌊400 * q⌋ := Int.floor_nonneg.mpr hq4
  have hcast : ((Int.toNat ⌊400 * q⌋ : ℤ)) = ⌊400 * q⌋ := Int.toNat_of_nonneg hfl
  have hs : Nat.sqrt (Int.toNat ⌊400 * q⌋) = m := by
    symm
    rw [Nat.eq_sqrt]
    constructor
    · have hz : ((m : ℤ)) * m ≤ ⌊400 * q⌋ := by
        rw [Int.le_floor]
        push_cast
        exact h1
      have : ((m * m : ℕ) : ℤ) ≤ ((Int.toNat ⌊400 * q⌋ : ℤ)) := by
        rw [hcast]; push_cast; exact hz
      exact_mod_cast this
    · have hz : ⌊400 * q⌋ < ((m : ℤ) + 1) * ((m : ℤ) + 1) := by
        have hlt : (⌊400 * q⌋ : ℚ) < ((m : ℚ) + 1) * ((m : ℚ) + 1) :=
          lt_of_le_of_lt (Int.floor_le _) h2
        exact_mod_cast hlt
      have : ((Int.toNat ⌊400 * q⌋ : ℤ)) < (((m + 1) * (m + 1) : ℕ) : ℤ) := by
        rw [hcast]; push_cast; push_cast at hz; linarith
      exact_mod_cast this
  rw [sqrtRound10, hs]

/-- `sqrtRound10` is nonnegative. -/
theorem sqrtRound10_nonneg (q : ℚ) : 0 ≤ sqrtRound10 q := by
  rw [sqrtRound10]
  positivity

/-- `sqrtRound10 0 = 0`. -/
theorem sqrtRound10_zero : sqrtRound10 0 = 0 := by
  rw [sqrtRound10_eval 0 0 le_rfl (by norm_num) (by norm_num)]
  norm_num

/-- `sqrtRound10` of a product of scores in `[0, 100]` is at most 100. -/
theorem sqrtRound10_le_100 (q : ℚ) (h : q ≤ 10000) : sqrtRound10 q ≤ 100 := by
  have hfl : ⌊400 * q⌋ ≤ 4000000 := by
    have h4 : (400 : ℚ) * q ≤ 4000000 := by linarith
    calc ⌊400 * q⌋ ≤ ⌊(4000000 : ℚ)⌋ := Int.floor_mono h4
    _ = 4000000 := by norm_num
  have htn : Int.toNat ⌊400 * q⌋ ≤ 4000000 := by omega
  have hm : Nat.sqrt (Int.toNat ⌊400 * q⌋) ≤ 2000 := by
    calc Nat.sqrt (Int.toNat ⌊400 * q⌋) ≤ Nat.sqrt 4000000 := Nat.sqrt_le_sqrt htn
    _ = 2000 := (Nat.eq_sqrt.mpr (by norm_num)).symm
  rw [sqrtRound10]
  have hn : (Nat.sqrt (Int.toNat ⌊400 * q⌋) + 1) / 2 ≤ 1000 := by omega
  have : (((Nat.sqrt (Int.toNat ⌊400 * q⌋) + 1) / 2 : ℕ) : ℚ) ≤ 1000 := by
    exact_mod_cast hn
  linarith

/-- Justification of the exact embedding of
`Math.round(Math.sqrt(q) * 10) / 10`: `sqrtRound10` computes exactly the
round-half-up of ten times the real square root, divided by ten. -/
theorem sqrtRound10_eq_round_real_sqrt (q : ℚ) (hq : 0 ≤ q) :
    ((sqrtRound10 q : ℚ) : ℝ) = ((round (Real.sqrt (q : ℝ) * 10) : ℤ) : ℝ) / 10 := by
  have hqR : (0 : ℝ) ≤ (q : ℝ) := by exact_mod_cast hq
  have hfl : (0 : ℤ) ≤ ⌊400 * q⌋ := Int.floor_nonneg.mpr (by positivity)
  have hNval : ((Int.toNat ⌊400 * q⌋ : ℤ)) = ⌊400 * q⌋ := Int.toNat_of_nonneg hfl
  have hfloor_le : ((⌊400 * q⌋ : ℤ) : ℝ) ≤ 400 * (q : ℝ) := by
    have h := Int.floor_le (400 * q)
    have h2 : ((⌊400 * q⌋ : ℤ) : ℚ) ≤ 400 * q := h
    exact_mod_cast h2
  have hlt_floor : 400 * (q : ℝ) < ((⌊400 * q⌋ : ℤ) : ℝ) + 1 := by
    have h := Int.lt_floor_add_one (400 * q)
    have h2 : 400 * q < ((⌊400 * q⌋ : ℤ) : ℚ) + 1 := h
    exact_mod_cast h2
  set N := Int.toNat ⌊400 * q⌋ with hNdef
  set m := Nat.sqrt N with hmdef
  have hmm_le : ((m : ℝ)) * m ≤ 400 * (q : ℝ) := by
    have h1 : (m * m : ℕ) ≤ N := Nat.sqrt_le N
    have h2 : ((m * m : ℕ) : ℝ) ≤ (N : ℝ) := by exact_mod_cast h1
    have h3 : ((N : ℕ) : ℝ) = ((⌊400 * q⌋ : ℤ) : ℝ) := by exact_mod_cast hNval
    push_cast at h2
    calc ((m : ℝ)) * m ≤ (N : ℝ) := h2
    _ = ((⌊400 * q⌋ : ℤ) : ℝ) := h3
    _ ≤ 400 * (q : ℝ) := hfloor_le
  have hlt : 400 * (q : ℝ) < ((m : ℝ) + 1) * ((m : ℝ) + 1) := by
    have h1 : N < (m + 1) * (m + 1) := Nat.lt_succ_sqrt N
    have h2 : (N : ℝ) + 1 ≤ ((m : ℝ) + 1) * ((m : ℝ) + 1) := by
      have : N + 1 ≤ (m + 1) * (m + 1) := h1
      exact_mod_cast this
    have h3 : ((N : ℕ) : ℝ) = ((⌊400 * q⌋ : ℤ) : ℝ) := by exact_mod_cast hNval
    calc 400 * (q : ℝ) < ((⌊400 * q⌋ : ℤ) : ℝ) + 1 := hlt_floor
    _ = (N : ℝ) + 1 := by rw [h3]
    _ ≤ ((m : ℝ) + 1) * ((m : ℝ) + 1) := h2
  set s := Real.sqrt (400 * (q : ℝ)) with hsdef
  have hm_le_s : (m : ℝ) ≤ s := by
    rw [hsdef]
    calc (m : ℝ) = Real.sqrt (((m : ℝ)) ^ 2) := (Real.sqrt_sq (by positivity)).symm
    _ ≤ Real.sqrt (400 * (q : ℝ)) := Real.sqrt_le_sqrt (by nlinarith)
  have hs_lt : s < (m : ℝ) + 1 := by
    rw [hsdef]
    exact (Real.sqrt_lt' (by positivity)).mpr (by nlinarith)
  have hs10 : Real.sqrt (q : ℝ) * 10 = s / 2 := by
    rw [hsdef, show (400 : ℝ) * (q : ℝ) = 20 ^ 2 * (q : ℝ) by norm_num,
      show ((20 : ℝ) ^ 2 * (q : ℝ)) = (20 : ℝ) ^ 2 * (q : ℝ) from rfl]
    rw [Real.sqrt_mul (by positivity) (q : ℝ), Real.sqrt_sq (by norm_num)]
    ring
  have hround : round (Real.sqrt (q : ℝ) * 10) = (((m + 1) / 2 : ℕ) : ℤ) := by
    rw [hs10, round_eq]
    rcases Nat.even_or_odd m with he | ho
    · obtain ⟨j, hj⟩ := he
      have hdiv : (m + 1) / 2 = j := by omega
      rw [hdiv]
      rw [Int.floor_eq_iff]
      have hjm : (m : ℝ) = 2 * j := by
        have : m = j + j := hj
        push_cast [this]
        ring
      constructor
      · push_cast
        rw [hjm] at hm_le_s
        linarith
      · push_cast
        rw [hjm] at hs_lt
        linarith
    · obtain ⟨j, hj⟩ := ho
      have hdiv : (m + 1) / 2 = j + 1 := by omega
      rw [hdiv]
      rw [Int.floor_eq_iff]
      have hjm : (m : ℝ) = 2 * j + 1 := by
        push_cast [hj]
        ring
      constructor
      · push_cast
        rw [hjm] at hm_le_s
        linarith
      · push_cast
        rw [hjm] at hs_lt
        linarith
  rw [hround, sqrtRound10, ← hNdef, ← hmdef]
  generalize (m + 1) / 2 = k
  push_cast
  ring

/-! ### Aggregator facts -/

/-- Whenever the directional score is a number (no `NaN`), it lies in
`[0, 100]`: the clamp `Math.max(0, Math.min(100, score))` guarantees it. -/
theorem compatibilityScore_mem (s c : Fruit) (x : ℚ)
    (h : calculateCompatibilityScore s c = some x) : 0 ≤ x ∧ x ≤ 100 := by
  rw [calculateCompatibilityScore] at h
  cases hs1 : sizeContribution s.preferences c.attributes with
  | none => rw [hs1] at h; simp at h
  | some s1 =>
    cases hs2 : weightContribution s.preferences c.attributes with
    | none => rw [hs1, hs2] at h; simp at h
    | some s2 =>
      rw [hs1, hs2] at h
      simp only [Option.some.injEq] at h
      subst h
      refine ⟨le_max_left _ _, max_le (by norm_num) (min_le_left _ _)⟩

/-- A seeker with an entirely absent preference set scores every candidate at
exactly the base 50. -/
theorem score_of_emptyPreferences (s c : Fruit)
    (h : s.preferences = emptyPreferences) :
    calculateCompatibilityScore s c = some 50 := by
  rw [calculateCompatibilityScore, h]
  simp [sizeContribution, weightContribution, hasStemContribution,
    hasLeafContribution, hasWormContribution, hasChemicalsContribution,
    shineFactorContribution, emptyPreferences, enumPrefActive]
  norm_num

/-- Whenever the mutual score is a number, it lies in `[0, 100]`. -/
theorem mutualScore_mem (a b : Fruit) (z : ℚ)
    (h : calculateMutualScore a b = some z) : 0 ≤ z ∧ z ≤ 100 := by
  rw [calculateMutualScore] at h
  cases h1 : calculateCompatibilityScore a b with
  | none => rw [h1] at h; simp at h
  | some x =>
    cases h2 : calculateCompatibilityScore b a with
    | none => rw [h1, h2] at h; simp at h
    | some y =>
      rw [h1, h2] at h
      simp only [Option.some.injEq] at h
      subst h
      obtain ⟨hx0, hx1⟩ := compatibilityScore_mem a b x h1
      obtain ⟨hy0, hy1⟩ := compatibilityScore_mem b a y h2
      refine ⟨sqrtRound10_nonneg _, sqrtRound10_le_100 _ (by nlinarith)⟩

/-- An unknown candidate attribute means the matching dimension adds exactly
zero inside the aggregator. -/
theorem dimContribution_unknown (d : Dim) (p : FruitPreferences)
    (a : FruitAttributes) (h : attrUnknown d a) :
    dimContribution d p a = some 0 := by
  cases d <;>
    simp only [attrUnknown] at h <;>
    simp [dimContribution, sizeContribution, weightContribution,
      hasStemContribution, hasLeafContribution, hasWormContribution,
      hasChemicalsContribution, shineFactorContribution, h,
      scoreNumericAttribute_unknown, scoreBooleanAttribute_unknown,
      scoreEnumAttribute_unknown]

/-- An unknown candidate attribute makes the directional score independent of
the matching preference: erasing that preference changes nothing. -/
theorem score_erase_unknown (d : Dim) (s c : Fruit)
    (h : attrUnknown d c.attributes) :
    calculateCompatibilityScore s c =
      calculateCompatibilityScore { s with preferences := erasePref d s.preferences } c := by
  cases d <;>
    simp only [attrUnknown] at h <;>
    simp [calculateCompatibilityScore, erasePref, sizeContribution,
      weightContribution, hasStemContribution, hasLeafContribution,
      hasWormContribution, hasChemicalsContribution, shineFactorContribution,
      h, scoreNumericAttribute_unknown, scoreBooleanAttribute_unknown,
      scoreEnumAttribute_unknown]

/-! ### Concrete evaluations -/

/-- The `buildMatch` mutual score is the mutual score of `calculateMutualScore`
on the same pair: both compute the rounded square root of the product of the
two unrounded directional scores. -/
theorem buildMatch_mutualScore (seeker candidate : Fruit) :
    (buildMatch seeker candidate).mutualScore =
      calculateMutualScore seeker candidate := by
  rw [buildMatch, calculateMutualScore]

/-- `√(50 · 50) = 50` exactly, so the rounded value is `50`. -/
theorem sqrtRound10_2500 : sqrtRound10 2500 = 50 := by
  rw [sqrtRound10_eval 2500 1000 (by norm_num) (by norm_num) (by norm_num)]
  norm_num

/-- `√(50 · 65) = √3250 ≈ 57.0088`, which rounds to `57`. -/
theorem sqrtRound10_3250 : sqrtRound10 3250 = 57 := by
  rw [sqrtRound10_eval 3250 1140 (by norm_num) (by norm_num) (by norm_num)]
  norm_num

/-- The four boolean mismatches drive the raw sum to `50 - 100 = -50`, which
clamps to 0. -/
theorem score_boolClasher_boolMismatch :
    calculateCompatibilityScore boolClasher boolMismatch = some 0 := by
  rw [calculateCompatibilityScore]
  norm_num [sizeContribution, weightContribution, hasStemContribution,
    hasLeafContribution, hasWormContribution, hasChemicalsContribution,
    shineFactorContribution, boolClasher, boolMismatch, emptyPreferences,
    noAttributes, scoreBooleanAttribute, enumPrefActive]

/-- The degenerate `[5, 5]` size preference against an exact size-5 candidate
is `NaN` (modelled `none`). -/
theorem score_boolMismatch_boolClasher :
    calculateCompatibilityScore boolMismatch boolClasher = none := by
  rw [calculateCompatibilityScore]
  norm_num [sizeContribution, weightContribution, boolClasher, boolMismatch,
    emptyPreferences, noAttributes, scoreNumericAttribute]

/-- Same degenerate evaluation for `degenerateFruit` against `seekerFive`. -/
theorem score_degenerate_seekerFive :
    calculateCompatibilityScore degenerateFruit seekerFive = none := by
  rw [calculateCompatibilityScore]
  norm_num [sizeContribution, weightContribution, degenerateFruit, seekerFive,
    emptyPreferences, noAttributes, scoreNumericAttribute]

/-- Same evaluation for the second degenerate orange. -/
theorem score_degenerateB_seekerFive :
    calculateCompatibilityScore degenerateFruitB seekerFive = none := by
  rw [calculateCompatibilityScore]
  norm_num [sizeContribution, weightContribution, degenerateFruit,
    degenerateFruitB, seekerFive, emptyPreferences, noAttributes,
    scoreNumericAttribute]

/-- `stemLover` scores `seekerFive` at `50 + 15 = 65`. -/
theorem score_stemLover_seekerFive :
    calculateCompatibilityScore stemLover seekerFive = some 65 := by
  rw [calculateCompatibilityScore]
  norm_num [sizeContribution, weightContribution, hasStemContribution,
    hasLeafContribution, hasWormContribution, hasChemicalsContribution,
    shineFactorContribution, stemLover, seekerFive, emptyPreferences,
    noAttributes, scoreBooleanAttribute, enumPrefActive]

/-- Two preference-free fruits have mutual score exactly 50. -/
theorem mutual_seekerFive_neutral :
    calculateMutualScore seekerFive neutralFruit = some 50 := by
  rw [calculateMutualScore, score_of_emptyPreferences seekerFive neutralFruit rfl,
    score_of_emptyPreferences neutralFruit seekerFive rfl]
  show some (sqrtRound10 (50 * 50)) = some 50
  rw [show (50 : ℚ) * 50 = 2500 by norm_num, sqrtRound10_2500]

/-- `seekerFive` and `stemLover` have mutual score `√(50 · 65)` rounded,
i.e. 57. -/
theorem mutual_seekerFive_stemLover :
    calculateMutualScore seekerFive stemLover = some 57 := by
  rw [calculateMutualScore, score_of_emptyPreferences seekerFive stemLover rfl,
    score_stemLover_seekerFive]
  show some (sqrtRound10 (50 * 65)) = some 57
  rw [show (50 : ℚ) * 65 = 3250 by norm_num, sqrtRound10_3250]

/-- The degenerate orange's `NaN` directional score makes the mutual score
`NaN`. -/
theorem mutual_seekerFive_degenerate :
    calculateMutualScore seekerFive degenerateFruit = none := by
  rw [calculateMutualScore, score_of_emptyPreferences seekerFive degenerateFruit rfl,
    score_degenerate_seekerFive]

/-- Same for the second degenerate orange. -/
theorem mutual_seekerFive_degenerateB :
    calculateMutualScore seekerFive degenerateFruitB = none := by
  rw [calculateMutualScore, score_of_emptyPreferences seekerFive degenerateFruitB rfl,
    score_degenerateB_seekerFive]

/-- A `NaN` mutual score on the left compares as "may precede anything". -/
theorem matchCompare_none_left (a b : Match) (h : a.mutualScore = none) :
    matchCompare a b = true := by
  cases hb : b.mutualScore <;> simp [matchCompare, h, hb]

/-- A `NaN` mutual score on the right compares as "anything may precede it". -/
theorem matchCompare_none_right (a b : Match) (h : b.mutualScore = none) :
    matchCompare a b = true := by
  cases ha : a.mutualScore <;> simp [matchCompare, h, ha]

/-- `matchCompareD` is transitive. -/
theorem matchCompareD_trans (a b c : Match) (h1 : matchCompareD a b)
    (h2 : matchCompareD b c) : matchCompareD a c := by
  simp only [matchCompareD, decide_eq_true_eq] at h1 h2 ⊢
  exact le_trans h2 h1

/-- `matchCompareD` is total. -/
theorem matchCompareD_total (a b : Match) :
    matchCompareD a b || matchCompareD b a := by
  simp only [matchCompareD, Bool.or_eq_true, decide_eq_true_eq]
  exact le_total _ _

/-- On matches with defined mutual scores, the ECMAScript comparator ordering
agrees with the total comparator. -/
theorem matchCompare_eq_matchCompareD (a b : Match)
    (ha : a.mutualScore.isSome) (hb : b.mutualScore.isSome) :
    matchCompare a b = matchCompareD a b := by
  cases h1 : a.mutualScore with
  | none => rw [h1] at ha; simp at ha
  | some x =>
    cases h2 : b.mutualScore with
    | none => rw [h2] at hb; simp at hb
    | some y => simp [matchCompare, matchCompareD, h1, h2]

/-- `matchCompareD` holds whenever the two mutual scores coincide. -/
theorem matchCompareD_of_eq (a b : Match)
    (h : a.mutualScore = b.mutualScore) : matchCompareD a b := by
  simp [matchCompareD, h]

/-- Concrete sort trace on the `NaN`-infected pool
`[degenerateFruit, neutralFruit, degenerateFruitB, stemLover]` (mutual scores
`[NaN, 50, NaN, 57]`): the stable merge sort never directly compares the
50-match with the 57-match (every comparison involves a `NaN`, which the
ECMAScript `SortCompare` treats as "equal"), so the list comes out unchanged
and is NOT descending on the defined scores. -/
theorem mergeSort_nanExample :
    (scoredList seekerFive
        [degenerateFruit, neutralFruit, degenerateFruitB, stemLover]).mergeSort
      matchCompare
      = [buildMatch seekerFive degenerateFruit,
         buildMatch seekerFive neutralFruit,
         buildMatch seekerFive degenerateFruitB,
         buildMatch seekerFive stemLover] := by
  have h1 : (buildMatch seekerFive degenerateFruit).mutualScore = none := by
    rw [buildMatch_mutualScore, mutual_seekerFive_degenerate]
  have h3 : (buildMatch seekerFive degenerateFruitB).mutualScore = none := by
    rw [buildMatch_mutualScore, mutual_seekerFive_degenerateB]
  simp only [scoredList, List.map]
  simp only [List.mergeSort, List.splitInTwo_fst, List.splitInTwo_snd,
    List.length_cons, List.length_nil, List.take, List.drop,
    List.cons_merge_cons, List.nil_merge, List.merge_right,
    matchCompare_none_left _ _ h1, matchCompare_none_left _ _ h3]
  simp only [if_true, List.cons_merge_cons, matchCompare_none_left _ _ h1,
    matchCompare_none_right _ _ h3, List.nil_merge]

/-- The four boolean mismatches clamp to 0 also against the preference-free
variant. -/
theorem score_boolClasher_noPref :
    calculateCompatibilityScore boolClasher boolMismatchNoPref = some 0 := by
  rw [calculateCompatibilityScore]
  norm_num [sizeContribution, weightContribution, hasStemContribution,
    hasLeafContribution, hasWormContribution, hasChemicalsContribution,
    shineFactorContribution, boolClasher, boolMismatch, boolMismatchNoPref,
    emptyPreferences, noAttributes, scoreBooleanAttribute, enumPrefActive]

/-! ### Claim theorems -/

/-- C1: the invariant "all three score kinds lie in [0, 100] for all
preference/attribute combinations, including numeric preferences with
min = max" is violated by the code: for the degenerate size preference
`[5, 5]` against a candidate of size exactly 5 the directional score is `NaN`
(modelled `none`), not a number in `[0, 100]`, and the `NaN` propagates into
the mutual score.  (Whenever the score IS a number it does lie in `[0, 100]`,
see `compatibilityScore_mem` and `mutualScore_mem`.) -/
theorem c1_clamped_range_violated :
    calculateCompatibilityScore degenerateFruit seekerFive = none
    ∧ calculateMutualScore degenerateFruit seekerFive = none := by
  refine ⟨score_degenerate_seekerFive, ?_⟩
  rw [calculateMutualScore, score_degenerate_seekerFive]

/-- C2 (counterexample): on a candidate pool whose mutual scores are
`[NaN, 50, NaN, 57]`, the ECMAScript sort never compares 50 with 57 (every
executed comparison involves a `NaN`, treated as "equal" by `SortCompare`),
the list comes out in input order, and the result of `findTopMatches` is NOT
sorted by mutual score descending: the 50-match precedes the 57-match. -/
theorem c2_sort_counterexample :
    ¬ (findTopMatches seekerFive
        [degenerateFruit, neutralFruit, degenerateFruitB, stemLover] 5).Pairwise
        mutualDescending := by
  intro hp
  have heval : findTopMatches seekerFive
      [degenerateFruit, neutralFruit, degenerateFruitB, stemLover] 5
      = [buildMatch seekerFive degenerateFruit,
         buildMatch seekerFive neutralFruit,
         buildMatch seekerFive degenerateFruitB,
         buildMatch seekerFive stemLover] := by
    rw [findTopMatches, mergeSort_nanExample]
    rfl
  rw [heval] at hp
  have h2 : (buildMatch seekerFive neutralFruit).mutualScore = some 50 := by
    rw [buildMatch_mutualScore, mutual_seekerFive_neutral]
  have h4 : (buildMatch seekerFive stemLover).mutualScore = some 57 := by
    rw [buildMatch_mutualScore, mutual_seekerFive_stemLover]
  rcases List.pairwise_cons.mp hp with ⟨_, hp1⟩
  rcases List.pairwise_cons.mp hp1 with ⟨hrel, _⟩
  have hcon := hrel (buildMatch seekerFive stemLover) (by simp) 50 57 h2 h4
  norm_num at hcon

/-- C2 (amended): `findTopMatches` builds one Match per candidate, stably
merge-sorts them with the mutual-score comparator and truncates to `limit`;
the length is `min limit |candidates|` and an empty pool gives an empty
result for every limit; and PROVIDED every candidate's mutual score is a
defined number (no `NaN` from a degenerate min = max preference), the result
is sorted by mutual score descending, with equal scores retaining their input
order. -/
theorem c2_ranker_sorted_stable_truncated (seeker : Fruit)
    (candidates : List Fruit) (limit : ℕ) :
    findTopMatches seeker candidates limit
      = ((scoredList seeker candidates).mergeSort matchCompare).take limit
    ∧ ((scoredList seeker candidates).mergeSort matchCompare).Perm
        (scoredList seeker candidates)
    ∧ (findTopMatches seeker candidates limit).length = min limit candidates.length
    ∧ (candidates = [] → findTopMatches seeker candidates limit = [])
    ∧ ((∀ m ∈ scoredList seeker candidates, m.mutualScore.isSome) →
        (findTopMatches seeker candidates limit).Pairwise mutualDescending
        ∧ ∀ m₁ m₂ : Match, m₁.mutualScore = m₂.mutualScore →
            [m₁, m₂].Sublist (scoredList seeker candidates) →
            [m₁, m₂].Sublist ((scoredList seeker candidates).mergeSort matchCompare)) := by
  refine ⟨rfl, List.mergeSort_perm _ _, ?_, ?_, ?_⟩
  · rw [findTopMatches, List.length_take, List.length_mergeSort, scoredList,
      List.length_map]
  · intro h
    subst h
    simp [findTopMatches, scoredList]
  · intro hS
    have hEq : (scoredList seeker candidates).mergeSort matchCompare
        = (scoredList seeker candidates).mergeSort matchCompareD :=
      mergeSort_congr _
        (fun a ha b hb => matchCompare_eq_matchCompareD a b (hS a ha) (hS b hb))
    constructor
    · have hsorted :=
        List.sorted_mergeSort (fun a b c => matchCompareD_trans a b c)
          (fun a b => matchCompareD_total a b) (scoredList seeker candidates)
      rw [findTopMatches, hEq]
      have htake := hsorted.sublist (List.take_sublist limit _)
      exact htake.imp (fun hab => by
        intro x y hx hy
        simp only [matchCompareD, hx, hy, Option.getD_some,
          decide_eq_true_eq] at hab
        exact hab)
    · intro m₁ m₂ hmeq hsub
      rw [hEq]
      exact List.pair_sublist_mergeSort (fun a b c => matchCompareD_trans a b c)
        (fun a b => matchCompareD_total a b) (matchCompareD_of_eq m₁ m₂ hmeq) hsub

/-- C2 (witness): on the `NaN`-free pool `[stemLover, neutralFruit]` every
mutual score is defined and the ranked result is descending. -/
theorem c2_ranker_witness :
    (∀ m ∈ scoredList seekerFive [stemLover, neutralFruit], m.mutualScore.isSome)
    ∧ (findTopMatches seekerFive [stemLover, neutralFruit] 5).Pairwise
        mutualDescending := by
  have hS : ∀ m ∈ scoredList seekerFive [stemLover, neutralFruit],
      m.mutualScore.isSome := by
    intro m hm
    simp only [scoredList, List.map, List.mem_cons, List.not_mem_nil,
      or_false] at hm
    rcases hm with h | h <;> subst h
    · rw [buildMatch_mutualScore, mutual_seekerFive_stemLover]
      rfl
    · rw [buildMatch_mutualScore, mutual_seekerFive_neutral]
      rfl
  exact ⟨hS,
    ((c2_ranker_sorted_stable_truncated seekerFive [stemLover, neutralFruit] 5).2.2.2.2
      hS).1⟩

/-- C3: an unknown (null) candidate attribute contributes exactly 0 in each
of the three scorers, and consequently the directional score equals the score
of the same call with that dimension's preference absent. -/
theorem c3_unknown_attribute_neutral (d : Dim) (s c : Fruit)
    (h : attrUnknown d c.attributes) :
    dimContribution d s.preferences c.attributes = some 0
    ∧ calculateCompatibilityScore s c =
        calculateCompatibilityScore
          { s with preferences := erasePref d s.preferences } c
    ∧ (∀ p, scoreNumericAttribute p none = some 0)
    ∧ (∀ p, scoreBooleanAttribute p none = 0)
    ∧ (∀ p, scoreEnumAttribute p none = 0) :=
  ⟨dimContribution_unknown d s.preferences c.attributes h,
   score_erase_unknown d s c h, scoreNumericAttribute_unknown,
   scoreBooleanAttribute_unknown, scoreEnumAttribute_unknown⟩

/-- C3 (witness): concrete instance at the size dimension with an unknown
candidate size. -/
theorem c3_unknown_attribute_neutral_witness :
    attrUnknown Dim.size neutralFruit.attributes
    ∧ calculateCompatibilityScore seekerFive neutralFruit =
        calculateCompatibilityScore
          { seekerFive with
              preferences := erasePref Dim.size seekerFive.preferences }
          neutralFruit :=
  ⟨rfl, (c3_unknown_attribute_neutral Dim.size seekerFive neutralFruit rfl).2.1⟩

/-- C4 (counterexample): the claim "a value exactly at the range midpoint
with both bounds set yields +15" fails at the degenerate range `[5, 5]`: the
midpoint is 5 but the scorer returns `NaN` (modelled `none`), not +15. -/
theorem c4_midpoint_counterexample :
    scoreNumericAttribute (some ⟨some 5, some 5⟩) (some ((5 + 5) / 2)) ≠ some 15 := by
  norm_num [scoreNumericAttribute]
  simp

/-- C4 (amended): for the numeric-range scorer, provided min < max, the value
at the midpoint of a two-sided range earns the full +15; a value exactly at
min with only min set earns +15; a value at min + 5 or beyond (min-only)
earns 0 following `15 · max(0, 1 − (value − min)/5)`; and a value one unit
below an active min earns −20 whatever the max bound. -/
theorem c4_numeric_scorer_values (mn mx v : ℚ) :
    (mn < mx →
      scoreNumericAttribute (some ⟨some mn, some mx⟩) (some ((mn + mx) / 2))
        = some 15)
    ∧ scoreNumericAttribute (some ⟨some mn, none⟩) (some mn) = some 15
    ∧ (mn + 5 ≤ v →
        scoreNumericAttribute (some ⟨some mn, none⟩) (some v) = some 0)
    ∧ (∀ mxOpt : Option ℚ,
        scoreNumericAttribute (some ⟨some mn, mxOpt⟩) (some (mn - 1))
          = some (-20)) := by
  refine ⟨?_, ?_, ?_, ?_⟩
  · intro h
    have h1 : ¬((mn + mx) / 2 < mn) := by intro hc; linarith
    have h2 : ¬((mn + mx) / 2 > mx) := by intro hc; linarith
    have h3 : ¬(mx - mn = 0) := by intro hc; linarith [sub_eq_zero.mp hc]
    simp only [scoreNumericAttribute, if_neg h1, if_neg h2, if_neg h3]
    norm_num
  · simp only [scoreNumericAttribute, if_neg (lt_irrefl mn)]
    norm_num
  · intro hv
    have h1 : ¬(v < mn) := by intro hc; linarith
    have h2 : 1 - (v - mn) / 5 ≤ 0 := by linarith
    simp only [scoreNumericAttribute, if_neg h1, max_eq_left h2]
    norm_num
  · intro mxOpt
    have h1 : mn - 1 < mn := by linarith
    cases mxOpt <;> simp only [scoreNumericAttribute, if_pos h1]

/-- C4 (witness): concrete instances of the amended facts at
`min = 0, max = 10, v = 5`. -/
theorem c4_numeric_scorer_values_witness :
    scoreNumericAttribute (some ⟨some 0, some 10⟩) (some ((0 + 10) / 2)) = some 15
    ∧ scoreNumericAttribute (some ⟨some 0, none⟩) (some 0) = some 15
    ∧ scoreNumericAttribute (some ⟨some 0, none⟩) (some 5) = some 0
    ∧ scoreNumericAttribute (some ⟨some 0, some 10⟩) (some (0 - 1)) = some (-20) :=
  ⟨(c4_numeric_scorer_values 0 10 5).1 (by norm_num),
   (c4_numeric_scorer_values 0 10 5).2.1,
   (c4_numeric_scorer_values 0 10 5).2.2.1 (by norm_num),
   (c4_numeric_scorer_values 0 10 5).2.2.2 (some 10)⟩

/-- C5: a seeker with a fully absent preference set scores every candidate at
exactly 50, and if the candidate also has no preferences the mutual score is
exactly 50. -/
theorem c5_empty_preferences_base_score (s c : Fruit)
    (h : s.preferences = emptyPreferences) :
    calculateCompatibilityScore s c = some 50
    ∧ (c.preferences = emptyPreferences →
        calculateMutualScore s c = some 50) := by
  refine ⟨score_of_emptyPreferences s c h, fun hc => ?_⟩
  rw [calculateMutualScore, score_of_emptyPreferences s c h,
    score_of_emptyPreferences c s hc]
  show some (sqrtRound10 (50 * 50)) = some 50
  rw [show (50 : ℚ) * 50 = 2500 by norm_num, sqrtRound10_2500]

/-- C5 (witness): concrete preference-free pair. -/
theorem c5_empty_preferences_base_score_witness :
    seekerFive.preferences = emptyPreferences
    ∧ calculateCompatibilityScore seekerFive neutralFruit = some 50
    ∧ calculateMutualScore seekerFive neutralFruit = some 50 :=
  ⟨rfl, (c5_empty_preferences_base_score seekerFive neutralFruit rfl).1,
   (c5_empty_preferences_base_score seekerFive neutralFruit rfl).2 rfl⟩

/-- C6: the mutual score is symmetric in its two arguments (the product of
the two directional scores commutes; `NaN` is symmetric as well). -/
theorem c6_mutual_symmetric (a b : Fruit) :
    calculateMutualScore a b = calculateMutualScore b a := by
  rw [calculateMutualScore, calculateMutualScore]
  cases calculateCompatibilityScore a b <;>
    cases calculateCompatibilityScore b a <;>
    simp [mul_comm]

/-- C7 (counterexample): "if either directional score is 0 the mutual score
is 0 regardless of the other" fails when the other directional score is
`NaN`: here `boolClasher → boolMismatch` scores 0, yet the mutual score is
`NaN` (modelled `none`), not 0. -/
theorem c7_zero_counterexample :
    calculateCompatibilityScore boolClasher boolMismatch = some 0
    ∧ calculateMutualScore boolClasher boolMismatch = none
    ∧ calculateMutualScore boolClasher boolMismatch ≠ some 0 := by
  refine ⟨score_boolClasher_boolMismatch, ?_, ?_⟩
  · rw [calculateMutualScore, score_boolClasher_boolMismatch,
      score_boolMismatch_boolClasher]
  · rw [calculateMutualScore, score_boolClasher_boolMismatch,
      score_boolMismatch_boolClasher]
    simp

/-- C7 (amended): provided both directional scores are defined numbers, if
either is 0 then the mutual score is exactly 0. -/
theorem c7_zero_annihilates (a b : Fruit) (x y : ℚ)
    (hx : calculateCompatibilityScore a b = some x)
    (hy : calculateCompatibilityScore b a = some y)
    (h : x = 0 ∨ y = 0) :
    calculateMutualScore a b = some 0 := by
  rw [calculateMutualScore, hx, hy]
  show some (sqrtRound10 (x * y)) = some 0
  rcases h with h | h <;> subst h
  · rw [zero_mul, sqrtRound10_zero]
  · rw [mul_zero, sqrtRound10_zero]

/-- C7 (witness): a pair with directional scores 0 and 50 has mutual score
exactly 0. -/
theorem c7_zero_annihilates_witness :
    calculateCompatibilityScore boolClasher boolMismatchNoPref = some 0
    ∧ calculateCompatibilityScore boolMismatchNoPref boolClasher = some 50
    ∧ calculateMutualScore boolClasher boolMismatchNoPref = some 0 :=
  ⟨score_boolClasher_noPref, score_of_emptyPreferences _ _ rfl,
   c7_zero_annihilates boolClasher boolMismatchNoPref 0 50
     score_boolClasher_noPref (score_of_emptyPreferences _ _ rfl)
     (Or.inl rfl)⟩

/-- C8: the mutual score stored in every Match record produced by
`findTopMatches` coincides with `calculateMutualScore` on the seeker and the
record's fruit: the inline combination of the Ranker refines the Mutual Score
Combiner. -/
theorem c8_inline_mutual_refines_combiner (seeker : Fruit)
    (candidates : List Fruit) (limit : ℕ) (m : Match)
    (h : m ∈ findTopMatches seeker candidates limit) :
    m.mutualScore = calculateMutualScore seeker m.fruit := by
  rw [findTopMatches] at h
  have h1 : m ∈ (scoredList seeker candidates).mergeSort matchCompare :=
    List.mem_of_mem_take h
  have h2 : m ∈ scoredList seeker candidates := List.mem_mergeSort.mp h1
  rw [scoredList] at h2
  obtain ⟨c, _, rfl⟩ := List.mem_map.mp h2
  rw [buildMatch_mutualScore]
  rfl

/-- C8 (witness): concrete instance on a one-candidate pool. -/
theorem c8_inline_mutual_refines_combiner_witness :
    buildMatch seekerFive neutralFruit ∈ findTopMatches seekerFive [neutralFruit] 5
    ∧ (buildMatch seekerFive neutralFruit).mutualScore
        = calculateMutualScore seekerFive (buildMatch seekerFive neutralFruit).fruit := by
  have hm : buildMatch seekerFive neutralFruit
      ∈ findTopMatches seekerFive [neutralFruit] 5 := by
    simp [findTopMatches, scoredList]
  exact ⟨hm, c8_inline_mutual_refines_combiner seekerFive [neutralFruit] 5 _ hm⟩

/-- C9: the divisor `rangeWidth / 2` of the both-bounds branch is unguarded:
a preference with min = max = m scored against the exact value m evaluates
`0 / 0`, yielding `NaN` (modelled `none`), and the `NaN` propagates through
sum and clamp, so `calculateCompatibilityScore` returns `NaN` instead of a
number in `[0, 100]` — through either numeric dimension. -/
theorem c9_degenerate_range_nan (m : ℚ) (s c : Fruit) :
    scoreNumericAttribute (some ⟨some m, some m⟩) (some m) = none
    ∧ (s.preferences.size = some ⟨some m, some m⟩ → c.attributes.size = some m →
        calculateCompatibilityScore s c = none)
    ∧ (s.preferences.weight = some ⟨some m, some m⟩ →
        c.attributes.weight = some m →
        calculateCompatibilityScore s c = none) := by
  have hbase : scoreNumericAttribute (some ⟨some m, some m⟩) (some m) = none := by
    simp [scoreNumericAttribute]
  refine ⟨hbase, fun h1 h2 => ?_, fun h1 h2 => ?_⟩
  · have hsz : sizeContribution s.preferences c.attributes = none := by
      rw [sizeContribution, h1]
      simp only [Option.isSome_some, if_true]
      rw [h2]
      exact hbase
    rw [calculateCompatibilityScore, hsz]
  · have hw : weightContribution s.preferences c.attributes = none := by
      rw [weightContribution, h1]
      simp only [Option.isSome_some, if_true]
      rw [h2]
      exact hbase
    rw [calculateCompatibilityScore, hw]
    cases sizeContribution s.preferences c.attributes <;> rfl

/-- C9 (witness): concrete instance at m = 5. -/
theorem c9_degenerate_range_nan_witness :
    degenerateFruit.preferences.size = some ⟨some 5, some 5⟩
    ∧ seekerFive.attributes.size = some 5
    ∧ calculateCompatibilityScore degenerateFruit seekerFive = none :=
  ⟨rfl, rfl, (c9_degenerate_range_nan 5 degenerateFruit seekerFive).2.1 rfl rfl⟩

/-- C10: an empty-array enum preference passes the JS truthiness absence
check (arrays are truthy) and is never satisfiable, so every known attribute
value is penalised with −15, whereas an absent preference contributes 0. -/
theorem c10_empty_enum_array_active (v : String) :
    enumPrefActive (some (EnumPref.multi [])) = true
    ∧ scoreEnumAttribute (some (EnumPref.multi [])) (some v) = -15
    ∧ scoreEnumAttribute none (some v) = 0 := by
  refine ⟨rfl, ?_, rfl⟩
  simp [scoreEnumAttribute, enumPrefActive, acceptableValues]

end FruitMatching
